import Mathlib

/-!
Verification of the git-global core against its specification.

The Rust sources embedded here are `src/repo.rs` (the `Repo` handle and the
short-format status algorithm) and `src/subcommands/ui.rs` (the table rows of
the console UI).  The external `git2` backend is modelled by explicit data:
a status query becomes a function from status options to a list of entries,
and opening a repository becomes an `Option` result supplied by the caller.
-/

namespace GitGlobal

/-- The subset of `git2::Status` bit-flags that `get_short_format_status`
inspects, one `Bool` per flag. -/
structure Status where
  index_new : Bool
  index_modified : Bool
  index_deleted : Bool
  index_renamed : Bool
  index_typechange : Bool
  wt_new : Bool
  wt_modified : Bool
  wt_deleted : Bool
  wt_renamed : Bool
  wt_typechange : Bool
  ignored : Bool
  conflicted : Bool
deriving DecidableEq, Repr

/-- Embedding of `get_short_format_status` (src/repo.rs lines 119-151).
The guarded `match` arms of the Rust function become nested `if`s in source
order; the mutation of `istatus` inside the `is_wt_new` arm, and the two
override blocks for `ignored` and `conflicted`, are carried through as
rebindings. -/
def get_short_format_status (status : Status) : String :=
  let istatus : Char :=
    if status.index_new then 'A'
    else if status.index_modified then 'M'
    else if status.index_deleted then 'D'
    else if status.index_renamed then 'R'
    else if status.index_typechange then 'T'
    else ' '
  let iw : Char × Char :=
    if status.wt_new then
      ((if istatus = ' ' then '?' else istatus), '?')
    else if status.wt_modified then (istatus, 'M')
    else if status.wt_deleted then (istatus, 'D')
    else if status.wt_renamed then (istatus, 'R')
    else if status.wt_typechange then (istatus, 'T')
    else (istatus, ' ')
  let iw : Char × Char := if status.ignored then ('!', '!') else iw
  let iw : Char × Char := if status.conflicted then ('C', 'C') else iw
  String.mk [iw.1, iw.2]

/-- Modelled from the spec (§4.3): the index-state character,
"new→`A`, modified→`M`, deleted→`D`, renamed→`R`, type-changed→`T`,
else space", used to compare the source algorithm with the spec's words. -/
def spec_index_char (s : Status) : Char :=
  if s.index_new then 'A'
  else if s.index_modified then 'M'
  else if s.index_deleted then 'D'
  else if s.index_renamed then 'R'
  else if s.index_typechange then 'T'
  else ' '

/-- Modelled from the spec (§4.3): the worktree-state character,
"new→`?`, modified→`M`, deleted→`D`, renamed→`R`, type-changed→`T`,
else space". -/
def spec_wt_char (s : Status) : Char :=
  if s.wt_new then '?'
  else if s.wt_modified then 'M'
  else if s.wt_deleted then 'D'
  else if s.wt_renamed then 'R'
  else if s.wt_typechange then 'T'
  else ' '

/-- Modelled from the spec (§4.3): the final first character, where a
worktree-new state forces an index character that is still space to `?`. -/
def spec_first_char (s : Status) : Char :=
  if s.wt_new && (spec_index_char s = ' ') then '?' else spec_index_char s

/-- Closed-form evaluation of `get_short_format_status`: the override flags
first, then the spec-side characters.  Proved by exhausting all 4096 flag
combinations. -/
theorem short_format_eval (s : Status) :
    get_short_format_status s =
      if s.conflicted then "CC"
      else if s.ignored then "!!"
      else String.mk [spec_first_char s, spec_wt_char s] := by
  obtain ⟨a1, a2, a3, a4, a5, b1, b2, b3, b4, b5, ig, co⟩ := s
  cases a1 <;> cases a2 <;> cases a3 <;> cases a4 <;> cases a5 <;>
    cases b1 <;> cases b2 <;> cases b3 <;> cases b4 <;> cases b5 <;>
    cases ig <;> cases co <;> rfl

/-- The all-flags-clear status value. -/
def clean_status : Status :=
  { index_new := false, index_modified := false, index_deleted := false
    index_renamed := false, index_typechange := false
    wt_new := false, wt_modified := false, wt_deleted := false
    wt_renamed := false, wt_typechange := false
    ignored := false, conflicted := false }

/-- A staged-new file that is also new in the worktree: both `is_index_new`
and `is_wt_new` set, everything else clear. -/
def index_and_wt_new_status : Status :=
  { clean_status with index_new := true, wt_new := true }

/-- Commit object identifiers of the backend, abstracted to naturals. -/
abbrev Oid := Nat

/-- The data of a `git2::Commit` that `num_hours_since_last_commit` reads:
the commit timestamp in seconds (`commit.time().seconds()`). -/
structure CommitInfo where
  time_seconds : Int
deriving DecidableEq

/-- Model of an open `git2::Repository` as the backend responses the
embedded queries consume.  `head` is `none` when `head()` errors (for
example a repository with no commits), `some none` when the head resolves
but has no target oid, and `some (some oid)` otherwise; `find_commit` is
the backend's commit lookup. -/
structure Git2Repository where
  head : Option (Option Oid)
  find_commit : Oid → Option CommitInfo

/-- `i64::max_value()`. -/
def i64_max : Int := 2 ^ 63 - 1

/-- Embedding of `Repo::num_hours_since_last_commit` (src/repo.rs lines
36-52): resolve the head, its target oid and the tip commit; on success
return the elapsed whole hours between `now` and the commit time
(`chrono::Duration::num_hours` divides the seconds by 3600 truncating
toward zero, as Rust `i64` division does); any failure falls through to
`i64::max_value()`. -/
def num_hours_since_last_commit (git2_repo : Git2Repository)
    (now_seconds : Int) : Int :=
  match git2_repo.head with
  | some (some oid) =>
    match git2_repo.find_commit oid with
    | some commit => Int.tdiv (now_seconds - commit.time_seconds) 3600
    | none => i64_max
  | _ => i64_max

/-- A backend response whose `head()` call fails, as for a repository with
no commits. -/
def no_head_repo : Git2Repository :=
  { head := none, find_commit := fun _ => none }

/-- The `git2::StatusShow` variants used by the sources. -/
inductive StatusShow
  | IndexAndWorkdir
  | Workdir
deriving DecidableEq, Repr

/-- The fields of `git2::StatusOptions` that the sources set: the show
selector and the untracked/ignored inclusion flags. -/
structure StatusOptions where
  show_sel : StatusShow
  include_untracked : Bool
  include_ignored : Bool
deriving DecidableEq, Repr

/-- `git2::StatusOptions::new()`: show defaults to index-and-workdir and
both inclusion flags default to false. -/
def StatusOptions.new : StatusOptions :=
  { show_sel := StatusShow.IndexAndWorkdir
    include_untracked := false
    include_ignored := false }

/-- One element of the backend's `statuses` response: the file's relative
path and its status flags. -/
structure RawStatusEntry where
  path : String
  status : Status
deriving DecidableEq, Repr

/-- A status backend: the `statuses` call of an open repository, as a
function from the passed options to the returned entry list. -/
def StatusBackend : Type := StatusOptions → List RawStatusEntry

/-- The options value `get_short_status` passes to the backend:
`StatusOptions::new()` restricted to the working directory. -/
def workdir_status_opts : StatusOptions :=
  { StatusOptions.new with show_sel := StatusShow.Workdir }

/-- The options value `get_status` passes to the backend: show
index-and-workdir, untracked files included, ignored files excluded. -/
def full_status_opts : StatusOptions :=
  { StatusOptions.new with
      show_sel := StatusShow.IndexAndWorkdir
      include_untracked := true
      include_ignored := false }

/-- Embedding of `Repo::get_short_status` (src/repo.rs lines 63-75): query
statuses with `StatusOptions::new()` restricted to the working directory,
then return the short-format code of entry 0, or "?" when the list is
empty. -/
def get_short_status (statuses : StatusBackend) : String :=
  let status_opts : StatusOptions :=
    { StatusOptions.new with show_sel := StatusShow.Workdir }
  match (statuses status_opts).head? with
  | some entry => get_short_format_status entry.status
  | none => "?"

/-- Embedding of `Repo::get_status_lines` (src/repo.rs lines 78-95): map
each returned entry to `format!("\x7b\x7d \x7b\x7d", status_for_path, path)`. -/
def get_status_lines (statuses : StatusBackend)
    (status_opts : StatusOptions) : List String :=
  (statuses status_opts).map
    (fun entry => get_short_format_status entry.status ++ " " ++ entry.path)

/-- Embedding of `Repo::get_status` (src/repo.rs lines 54-61): show
index-and-workdir, include untracked files, exclude ignored files, then
delegate to `get_status_lines`. -/
def get_status (statuses : StatusBackend) : List String :=
  let status_opts : StatusOptions :=
    { StatusOptions.new with
        show_sel := StatusShow.IndexAndWorkdir
        include_untracked := true
        include_ignored := false }
  get_status_lines statuses status_opts

/-- Outcome of a call that may abort the process: either a panic with the
panic message, or a normal return. -/
inductive PanicOr (α : Type)
  | panic (msg : String)
  | ok (value : α)
deriving DecidableEq

/-- Whether an outcome is a panic. -/
def PanicOr.is_panic {α : Type} : PanicOr α → Bool
  | PanicOr.panic _ => true
  | PanicOr.ok _ => false

/-- Embedding of `Repo::as_git2_repo` (src/repo.rs lines 23-28): the
result of `git2::Repository::open` is turned into an `Option` by `.ok()`
and then unwrapped with `.expect(...)`, which panics with the fixed
message when the open failed. -/
def as_git2_repo (open_result : Option Git2Repository) :
    PanicOr Git2Repository :=
  match open_result with
  | some repo => PanicOr.ok repo
  | none => PanicOr.panic
      "Could not open \x7b\x7d as a git repo. Perhaps you should run `git global scan` again."

end GitGlobal

open GitGlobal

/-- C1: for every file status with neither the ignored nor the conflicted
override flag set, `get_short_format_status` yields exactly the two
characters described by the spec: the index state mapped with priority
new→'A', modified→'M', deleted→'D', renamed→'R', type-changed→'T', else
space, and the worktree state mapped with priority new→'?', modified→'M',
deleted→'D', renamed→'R', type-changed→'T', else space, where a
worktree-new state forces a still-space index character to '?'. -/
theorem short_format_matches_spec_mapping (s : Status)
    (hig : s.ignored = false) (hco : s.conflicted = false) :
    get_short_format_status s = String.mk [spec_first_char s, spec_wt_char s] := by
  rw [short_format_eval, hig, hco]
  simp

/-- Witness for C1 at the untracked-file status (only `wt_new` set). -/
theorem short_format_matches_spec_mapping_witness :
    ({ clean_status with wt_new := true } : Status).ignored = false ∧
    get_short_format_status { clean_status with wt_new := true } =
      String.mk [spec_first_char { clean_status with wt_new := true },
        spec_wt_char { clean_status with wt_new := true }] :=
  ⟨rfl, short_format_matches_spec_mapping { clean_status with wt_new := true } rfl rfl⟩

/-- C2: for every file status, the ignored flag forces both characters to
'!' and the conflicted flag forces both characters to 'C'; both overrides
take precedence over the four-state mapping, and because `ignored` is
applied first and `conflicted` second, a status with both flags set yields
"CC" — conflicted wins. -/
theorem short_format_override_flags (s : Status) :
    get_short_format_status s =
      if s.conflicted then "CC"
      else if s.ignored then "!!"
      else String.mk [spec_first_char s, spec_wt_char s] :=
  short_format_eval s

/-- C3 counterexample: for the status with index-new and worktree-new both
set and no other flag, the code yields "A?", not "??" — the index-new arm
has priority, so the index character is 'A' and the worktree-new forcing
does not apply (the index character is not space). -/
theorem index_and_wt_new_not_question_question :
    get_short_format_status index_and_wt_new_status ≠ "??" := by decide

/-- C3 amended: for every file status with index-new=true and
worktree-new=true (and no ignored or conflicted flag), the short-format
status function returns the string "A?". -/
theorem index_and_wt_new_gives_A_question (s : Status)
    (hin : s.index_new = true) (hwn : s.wt_new = true)
    (hig : s.ignored = false) (hco : s.conflicted = false) :
    get_short_format_status s = "A?" := by
  rw [short_format_eval, hig, hco]
  simp [spec_first_char, spec_wt_char, spec_index_char, hin, hwn]

/-- Witness for the amended C3 at the concrete both-new status. -/
theorem index_and_wt_new_gives_A_question_witness :
    index_and_wt_new_status.index_new = true ∧
    get_short_format_status index_and_wt_new_status = "A?" :=
  ⟨rfl, index_and_wt_new_gives_A_question index_and_wt_new_status rfl rfl rfl rfl⟩

/-- C4: whenever the head cannot be resolved, the head has no target oid,
or the tip commit cannot be found (a repository with no commits falls in
the first case), `num_hours_since_last_commit` returns `i64::max_value()`,
the maximum representable signed 64-bit integer, rather than an error. -/
theorem num_hours_sentinel_on_failure (git2_repo : Git2Repository)
    (now_seconds : Int)
    (h : git2_repo.head = none ∨ git2_repo.head = some none ∨
      ∃ oid, git2_repo.head = some (some oid) ∧ git2_repo.find_commit oid = none) :
    num_hours_since_last_commit git2_repo now_seconds = i64_max := by
  rcases h with h | h | ⟨oid, h1, h2⟩
  · simp [num_hours_since_last_commit, h]
  · simp [num_hours_since_last_commit, h]
  · simp [num_hours_since_last_commit, h1, h2]

/-- Witness for C4 at a repository whose `head()` call fails. -/
theorem num_hours_sentinel_on_failure_witness :
    num_hours_since_last_commit no_head_repo 0 = i64_max :=
  num_hours_sentinel_on_failure no_head_repo 0 (Or.inl rfl)

namespace GitGlobal

/-- Every short-format status code has exactly two characters. -/
theorem short_format_length (s : Status) :
    (get_short_format_status s).length = 2 := by
  rw [short_format_eval]
  split_ifs <;> rfl

/-- A backend whose worktree status query returns no entries. -/
def empty_backend : StatusBackend := fun _ => []

/-- A file modified only in the worktree. -/
def wt_modified_status : Status := { clean_status with wt_modified := true }

/-- A backend reporting a single worktree-modified file. -/
def one_entry_backend : StatusBackend :=
  fun _ => [{ path := "foo.txt", status := wt_modified_status }]

/-- Embedding of the `Repo` struct (src/repo.rs lines 10-13): the wrapped
`PathBuf` is modelled by the string it was built from, which is also what
`Repo::path()` returns. -/
structure Repo where
  path : String
deriving DecidableEq, Repr

/-- Embedding of `Repo::new` (src/repo.rs lines 16-20): the argument is
stored via `PathBuf::from`, which performs no canonicalization. -/
def Repo.new (path : String) : Repo :=
  { path := path }

/-- Modelled from the spec (§3): a RepoPath must be "always absolute"; on
Unix an absolute path begins with the root separator. -/
def path_is_absolute (p : String) : Bool :=
  match p.data with
  | [] => false
  | c :: _ => c = '/'

/-- The sortable columns of the UI table (src/subcommands/ui.rs lines
33-38). -/
inductive BasicColumn
  | Path
  | State
  | LastCommit
deriving DecidableEq, Repr

/-- A row of the UI table (src/subcommands/ui.rs lines 50-56). -/
structure Row where
  repo : Repo
  name : String
  state : String
  last_commit : String
deriving DecidableEq, Repr

/-- Embedding of `TableViewItem::to_column` for `Row` (src/subcommands/ui.rs
lines 59-65). -/
def Row.to_column (self : Row) (column : BasicColumn) : String :=
  match column with
  | BasicColumn.Path => self.name
  | BasicColumn.State => self.state
  | BasicColumn.LastCommit => self.last_commit

/-- Embedding of `TableViewItem::cmp` for `Row` (src/subcommands/ui.rs
lines 67-77): each column compares its string field with the string
ordering (Rust's `str` `Ord`, lexicographic). -/
def Row.cmp (self other : Row) (column : BasicColumn) : Ordering :=
  match column with
  | BasicColumn.Path => compare self.name other.name
  | BasicColumn.State => compare self.state other.state
  | BasicColumn.LastCommit => compare self.last_commit other.last_commit

/-- Embedding of the row construction in `execute` (src/subcommands/ui.rs
lines 100-108): name is the repo path, state is the literal "." (the call
to `get_short_status` is commented out in the source), and the last-commit
column is the `Display` rendering of `num_hours_since_last_commit`.  The
backend data and current time that `num_hours_since_last_commit` consumes
are passed explicitly. -/
def mk_row (repo : Repo) (git2_repo : Git2Repository) (now_seconds : Int) : Row :=
  { repo := repo
    name := repo.path
    state := "."
    last_commit := toString (num_hours_since_last_commit git2_repo now_seconds) }

/-- A backend whose head commit is at the epoch. -/
def tip_at_epoch : Git2Repository :=
  { head := some (some 0), find_commit := fun _ => some { time_seconds := 0 } }

/-- Row for a repository at path "/a" whose last commit is 9 hours old. -/
def row_age9 : Row := mk_row (Repo.new "/a") tip_at_epoch (9 * 3600)

/-- Row for a repository at path "/b" whose last commit is 10 hours old. -/
def row_age10 : Row := mk_row (Repo.new "/b") tip_at_epoch (10 * 3600)

/-- Row for a repository at path "/b" whose last commit is 9 hours old. -/
def row_age9_b : Row := mk_row (Repo.new "/b") tip_at_epoch (9 * 3600)

end GitGlobal

/-- C5 counterexample: when the worktree status query returns an empty
list, `get_short_status` returns "?", a one-character string, so the
result is not always a two-character code. -/
theorem get_short_status_empty_not_two_chars :
    (get_short_status empty_backend).length ≠ 2 := by decide

/-- C5 amended: `get_short_status` is computed from only the first entry
of the worktree-only status query (options `StatusOptions::new()` with
show=workdir): when at least one entry is reported, the result is that
entry's two-character short-format code; when the list is empty, the
result is the one-character string "?". -/
theorem get_short_status_first_entry (statuses : StatusBackend) :
    (∀ entry rest,
      statuses workdir_status_opts = entry :: rest →
      get_short_status statuses = get_short_format_status entry.status ∧
        (get_short_status statuses).length = 2)
    ∧ (statuses workdir_status_opts = [] →
      get_short_status statuses = "?") := by
  constructor
  · intro entry rest h
    have hval : get_short_status statuses = get_short_format_status entry.status := by
      simp [get_short_status, workdir_status_opts, StatusOptions.new] at h ⊢
      simp [h]
    exact ⟨hval, by rw [hval]; exact short_format_length entry.status⟩
  · intro h
    simp [get_short_status, workdir_status_opts, StatusOptions.new] at h ⊢
    simp [h]

/-- Witness for the amended C5 at a single-entry backend. -/
theorem get_short_status_first_entry_witness :
    get_short_status one_entry_backend =
      get_short_format_status wt_modified_status ∧
    (get_short_status one_entry_backend).length = 2 :=
  (get_short_status_first_entry one_entry_backend).1
    { path := "foo.txt", status := wt_modified_status } [] rfl

/-- C6 counterexample: when the backend cannot open the cached repository
path, `as_git2_repo` panics — it does not return a retrievable error. -/
theorem as_git2_repo_panics_on_open_failure :
    (as_git2_repo none).is_panic = true := rfl

/-- C6 amended: when the backend cannot open the cached repository path,
`as_git2_repo` aborts with a panic carrying a fixed message (the path
placeholder is not even interpolated), rather than returning a retrievable
per-repository error; when the open succeeds it returns the repository. -/
theorem as_git2_repo_behavior (open_result : Option Git2Repository) :
    (open_result = none →
      as_git2_repo open_result = PanicOr.panic
        "Could not open \x7b\x7d as a git repo. Perhaps you should run `git global scan` again.")
    ∧ (∀ repo, open_result = some repo →
      as_git2_repo open_result = PanicOr.ok repo) := by
  constructor
  · intro h; rw [h]; rfl
  · intro repo h; rw [h]; rfl

/-- Witness for the amended C6 on a failing and a succeeding open. -/
theorem as_git2_repo_behavior_witness :
    as_git2_repo none = PanicOr.panic
      "Could not open \x7b\x7d as a git repo. Perhaps you should run `git global scan` again." ∧
    as_git2_repo (some no_head_repo) = PanicOr.ok no_head_repo :=
  ⟨(as_git2_repo_behavior none).1 rfl,
   (as_git2_repo_behavior (some no_head_repo)).2 no_head_repo rfl⟩

/-- C7: `get_status` maps every entry of the index-and-workdir status
query with untracked files included and ignored files excluded to the line
`<code> <path>` — the two-character short-format code, one space, then the
file's relative path — in the order the backend reports them. -/
theorem get_status_formats_every_entry (statuses : StatusBackend) :
    get_status statuses =
      (statuses full_status_opts).map
        (fun entry => get_short_format_status entry.status ++ " " ++ entry.path)
    ∧ ∀ entry : RawStatusEntry,
      (get_short_format_status entry.status).length = 2 :=
  ⟨rfl, fun entry => short_format_length entry.status⟩

/-- C8 counterexample: the Last Commit column compares the rendered
strings, not the ages.  A 9-hour-old repository and a 10-hour-old one
satisfy 9 < 10, yet their rows compare `gt` (lexicographically "9" >
"10"); and two rows with equal ages but different paths compare `eq`, so
ties are not broken by path. -/
theorem last_commit_ordering_counterexample :
    num_hours_since_last_commit tip_at_epoch (9 * 3600) <
      num_hours_since_last_commit tip_at_epoch (10 * 3600)
    ∧ Row.cmp row_age9 row_age10 BasicColumn.LastCommit = Ordering.gt
    ∧ Row.cmp row_age9 row_age9_b BasicColumn.LastCommit = Ordering.eq
    ∧ row_age9.name ≠ row_age9_b.name := by
  refine ⟨by decide, by decide, by decide, by decide⟩

/-- C8 amended: ordering report rows by the Last Commit column compares
the decimal string renderings of the repositories' last-commit-age values
lexicographically (which disagrees with numeric age order once digit
counts differ), and the comparator depends only on the rendered
last-commit strings — rows with equal renderings compare equal, with no
path tiebreak inside the comparator; as a pure function of the two rows it
is deterministic across runs. -/
theorem last_commit_ordering_is_string_compare (r1 r2 : Row) :
    Row.cmp r1 r2 BasicColumn.LastCommit = compare r1.last_commit r2.last_commit
    ∧ ∀ r3 r4 : Row, r1.last_commit = r3.last_commit → r2.last_commit = r4.last_commit →
      Row.cmp r1 r2 BasicColumn.LastCommit = Row.cmp r3 r4 BasicColumn.LastCommit := by
  refine ⟨rfl, fun r3 r4 h1 h2 => ?_⟩
  simp [Row.cmp, h1, h2]

/-- Witness for the amended C8 at concrete rows with equal age strings and
different paths. -/
theorem last_commit_ordering_is_string_compare_witness :
    Row.cmp row_age9 row_age10 BasicColumn.LastCommit =
      compare row_age9.last_commit row_age10.last_commit
    ∧ Row.cmp row_age9 row_age10 BasicColumn.LastCommit =
      Row.cmp row_age9_b row_age10 BasicColumn.LastCommit :=
  ⟨(last_commit_ordering_is_string_compare row_age9 row_age10).1,
   (last_commit_ordering_is_string_compare row_age9 row_age10).2
     row_age9_b row_age10 (by decide) rfl⟩

/-- C9 counterexample: `Repo::new` applies no canonicalization, so the
handle built from the relative path "src" stores exactly "src", which is
not an absolute path — the canonical-absolute-path invariant fails. -/
theorem repo_new_not_canonicalized :
    (Repo.new "src").path = "src" ∧
    path_is_absolute (Repo.new "src").path = false := by
  refine ⟨rfl, by decide⟩

/-- C9 amended: `Repo::new` stores the supplied path string verbatim — no
canonicalization, no absolutization, no symlink resolution — so a relative
input stays relative in the handle. -/
theorem repo_new_stores_path_verbatim (path : String) :
    (Repo.new path).path = path
    ∧ (path_is_absolute path = false →
      path_is_absolute (Repo.new path).path = false) :=
  ⟨rfl, fun h => h⟩

/-- Witness for the amended C9 at the relative path "src". -/
theorem repo_new_stores_path_verbatim_witness :
    (Repo.new "src").path = "src" ∧
    path_is_absolute (Repo.new "src").path = false :=
  ⟨(repo_new_stores_path_verbatim "src").1,
   (repo_new_stores_path_verbatim "src").2 (by decide)⟩

/-- C10: every row the UI `execute` builds has the constant string "." in
its State column — for every repository path, backend response and clock —
and the State cell it displays via `to_column` is that same constant; the
two-character short status code plays no part in the row (the
`get_short_status` call is commented out in the source). -/
theorem ui_row_state_is_constant_dot (repo : Repo)
    (git2_repo : Git2Repository) (now_seconds : Int) :
    (mk_row repo git2_repo now_seconds).state = "."
    ∧ Row.to_column (mk_row repo git2_repo now_seconds) BasicColumn.State = "." :=
  ⟨rfl, rfl⟩
